import Mathlib

/-!
Verification of the state orchestration core of the mcp-agentic-ui repository.

The development shallowly embeds:
* the xstate text-display machine of `src/unnamed/part_004` (states `idle`,
  `displaying`, `waitingForInput`; events `SET_MARKDOWN`, `APPEND`, `UNDO`,
  `RESET`, `SHOW_INPUT`, `SUBMIT_INPUT`, `CANCEL_INPUT`, `SHOW_MULTI_FORM`,
  `SUBMIT_MULTI_FORM`, `SET_USER_CONTEXT`, `CLEAR_USER_CONTEXT`,
  `TOGGLE_SIDEBAR`), together with its persistence functions
  (`saveState`, `loadPersistedState`, and the restore logic of `getActor`);
* the older machine of `src/mcp-server/src/machine.ts` (namespace `Legacy`),
  which additionally has `SET_TEXT`, `APPEND_TEXT` and `CLEAR_TEXT`;
* the long-poll waiter of the `get_user_input` tool of `src/unnamed/part_006`,
  modelled as a function over the sequence of context snapshots emitted by the
  actor after the waiter subscribes.

xstate semantics used throughout: an event with no matching transition in the
current state (or whose every candidate transition has a failing guard and no
unguarded fallback) is ignored - the snapshot is unchanged and no action runs.
JavaScript truthiness of optional strings (`x || y`, `x ? a : b`) is modelled
explicitly: `none` and `some ""` are falsy.
-/

/-- Content kind of the displayed text ('text' | 'markdown'). -/
inductive ContentType
| text
| markdown
deriving DecidableEq

/-- History entry: stores both text and contentType for proper undo. -/
structure HistoryEntry where
  text : String
  contentType : ContentType
deriving DecidableEq

/-- Input status type ('idle' | 'pending' | 'submitted' | 'cancelled'). -/
inductive InputStatus
| idle
| pending
| submitted
| cancelled
deriving DecidableEq

/-- Input field kind of a single-field request ('text' | 'textarea' | 'number'). -/
inductive InputType
| text
| textarea
| number
deriving DecidableEq

/-- An opaque JavaScript value stored in `userContext` (typed `unknown` in the
source); the machine only moves these around, never inspects them. -/
inductive UValue
| str (s : String)
| num (n : Int)
| bool (b : Bool)
deriving DecidableEq

/-- A JavaScript `Record<string, unknown>` with its key ordering: updating an
existing key keeps its position, a new key is appended. -/
def recordSet (m : List (String × UValue)) (k : String) (v : UValue) :
    List (String × UValue) :=
  if m.any (fun p => p.1 = k) then
    m.map (fun p => if p.1 = k then (k, v) else p)
  else
    m ++ [(k, v)]

/-- Enumerating `Object.entries(values)` and assigning each into a record. -/
def recordSetMany (m : List (String × UValue)) (kvs : List (String × UValue)) :
    List (String × UValue) :=
  kvs.foldl (fun acc kv => recordSet acc kv.1 kv.2) m

/-- Single-field input request (`InputRequest` of part_004). -/
structure InputRequest where
  prompt : String
  inputType : InputType
  placeholder : Option String
  defaultValue : Option String
  requestId : String
  key : Option String
  content : Option String
deriving DecidableEq

/-- Field kind of a multi-field form field. -/
inductive FieldType
| text
| textarea
| number
| checkbox
| select
deriving DecidableEq

/-- A field of a multi-field form (`FormField` of part_004). -/
structure FormField where
  key : String
  label : String
  fieldType : FieldType
  placeholder : Option String
  defaultValue : Option UValue
  required : Option Bool
  options : Option (List String)
deriving DecidableEq

/-- Multi-field form request (`MultiFieldRequest` of part_004). -/
structure MultiFieldRequest where
  fields : List FormField
  content : Option String
  requestId : String
deriving DecidableEq

/-- Union type for any input request (`AnyInputRequest` of part_004). -/
inductive AnyInputRequest
| single (r : InputRequest)
| multi (r : MultiFieldRequest)
deriving DecidableEq

/-- `request.requestId` (both variants carry one). -/
def AnyInputRequest.requestId : AnyInputRequest → String
| .single r => r.requestId
| .multi r => r.requestId

/-- `request.content` (optional markdown shown above the form, both variants). -/
def AnyInputRequest.content : AnyInputRequest → Option String
| .single r => r.content
| .multi r => r.content

/-- The prompt of a single-field request, `none` for a multi-field one. -/
def AnyInputRequest.promptOf : AnyInputRequest → Option String
| .single r => some r.prompt
| .multi _ => none

/-- The fields of a multi-field request, `none` for a single-field one. -/
def AnyInputRequest.fieldsOf : AnyInputRequest → Option (List FormField)
| .single _ => none
| .multi r => some r.fields

/-- The object spread of `loadPersistedState`: same request with a replaced
`requestId`. -/
def AnyInputRequest.withRequestId : AnyInputRequest → String → AnyInputRequest
| .single r, id => .single { r with requestId := id }
| .multi r, id => .multi { r with requestId := id }

/-- Type guard `isMultiFieldRequest` of part_004 (`'fields' in request`). -/
def isMultiFieldRequest : Option AnyInputRequest → Bool
| some (.multi _) => true
| _ => false

/-- `TextMachineContext` of part_004. -/
structure TextMachineContext where
  text : String
  contentType : ContentType
  history : List HistoryEntry
  lastAction : Option String
  lastError : Option String
  inputRequest : Option AnyInputRequest
  userInput : Option String
  multiFieldInput : Option (List (String × UValue))
  inputStatus : InputStatus
  userContext : List (String × UValue)
  sidebarVisible : Bool
deriving DecidableEq

/-- `TextMachineEvent` of part_004. -/
inductive TextMachineEvent
| SET_MARKDOWN (markdown : String)
| APPEND (text : String)
| UNDO
| RESET
| SHOW_INPUT (request : InputRequest)
| SUBMIT_INPUT (value : String) (requestId : String)
| CANCEL_INPUT (requestId : String)
| SHOW_MULTI_FORM (request : MultiFieldRequest)
| SUBMIT_MULTI_FORM (values : List (String × UValue)) (requestId : String)
| SET_USER_CONTEXT (key : String) (value : UValue)
| CLEAR_USER_CONTEXT
| TOGGLE_SIDEBAR
deriving DecidableEq

/-- `initialContext` of part_004. -/
def initialContext : TextMachineContext :=
  { text := ""
    contentType := .text
    history := []
    lastAction := none
    lastError := none
    inputRequest := none
    userInput := none
    multiFieldInput := none
    inputStatus := .idle
    userContext := []
    sidebarVisible := true }

/-- The machine states of the `textDisplay` machine. -/
inductive MState
| idle
| displaying
| waitingForInput
deriving DecidableEq

/-- The history push shared by every content-changing action:
`[...context.history, (text, contentType)]`. -/
def pushHistory (c : TextMachineContext) : List HistoryEntry :=
  c.history ++ [{ text := c.text, contentType := c.contentType }]

/-- Guard of `SUBMIT_INPUT` / `CANCEL_INPUT` / `SUBMIT_MULTI_FORM`:
`context.inputRequest?.requestId === event.requestId` (false when the request
is null, since `undefined === id` is false for a string id). -/
def requestIdMatches (c : TextMachineContext) (requestId : String) : Bool :=
  match c.inputRequest with
  | some r => AnyInputRequest.requestId r == requestId
  | none => false

/-- `context.inputRequest?.content || context.text`: the request content when
truthy (present and non-empty), else the current text. -/
def resolvedText (c : TextMachineContext) : String :=
  match c.inputRequest with
  | some r =>
    match AnyInputRequest.content r with
    | some s => if s == "" then c.text else s
    | none => c.text
  | none => c.text

/-- `context.inputRequest?.content ? 'markdown' : context.contentType`. -/
def resolvedContentType (c : TextMachineContext) : ContentType :=
  match c.inputRequest with
  | some r =>
    match AnyInputRequest.content r with
    | some s => if s == "" then c.contentType else .markdown
    | none => c.contentType
  | none => c.contentType

/-- The `userContext` assignment of `SUBMIT_INPUT`: store the value under the
request's key when the request is single-field and its key is truthy. -/
def submitUserContext (c : TextMachineContext) (value : String) :
    List (String × UValue) :=
  match c.inputRequest with
  | some (.single r) =>
    match r.key with
    | some k => if k == "" then c.userContext else recordSet c.userContext k (.str value)
    | none => c.userContext
  | _ => c.userContext

/-- The transition function of the `textDisplay` machine of part_004.
Events without a matching (guard-passing) transition leave the snapshot
unchanged, as xstate does. -/
def transition (s : MState) (c : TextMachineContext) (e : TextMachineEvent) :
    MState × TextMachineContext :=
  match s, e with
  | .idle, .SET_MARKDOWN markdown =>
    (.displaying, { c with
        history := pushHistory c
        text := markdown
        contentType := .markdown
        lastAction := some "set_markdown"
        lastError := none })
  | .idle, .APPEND t =>
    (.displaying, { c with
        history := pushHistory c
        text := c.text ++ t
        lastAction := some "append"
        lastError := none })
  | .idle, .SHOW_INPUT request =>
    (.waitingForInput, { c with
        inputRequest := some (.single request)
        userInput := none
        multiFieldInput := none
        inputStatus := .pending
        lastAction := some "show_input"
        lastError := none })
  | .idle, .SHOW_MULTI_FORM request =>
    (.waitingForInput, { c with
        inputRequest := some (.multi request)
        userInput := none
        multiFieldInput := none
        inputStatus := .pending
        lastAction := some "show_multi_form"
        lastError := none })
  | .idle, .SET_USER_CONTEXT k v =>
    (.idle, { c with
        userContext := recordSet c.userContext k v
        lastAction := some "set_user_context"
        lastError := none })
  | .idle, .CLEAR_USER_CONTEXT =>
    (.idle, { c with
        userContext := []
        lastAction := some "clear_user_context"
        lastError := none })
  | .idle, .TOGGLE_SIDEBAR =>
    (.idle, { c with
        sidebarVisible := !c.sidebarVisible
        lastAction := some "toggle_sidebar"
        lastError := none })
  | .displaying, .SET_MARKDOWN markdown =>
    (.displaying, { c with
        history := pushHistory c
        text := markdown
        contentType := .markdown
        lastAction := some "set_markdown"
        lastError := none })
  | .displaying, .APPEND t =>
    (.displaying, { c with
        history := pushHistory c
        text := c.text ++ t
        lastAction := some "append"
        lastError := none })
  | .displaying, .UNDO =>
    -- guarded pair: `history.length > 0` takes the pop transition, else the
    -- unguarded fallback records the error; `getLast?` is `some` exactly when
    -- the history is non-empty, and `history[length-1]` / `slice(0,-1)` are
    -- its last element and `dropLast`.
    (match c.history.getLast? with
     | some entry =>
       (.displaying, { c with
           text := entry.text
           contentType := entry.contentType
           history := c.history.dropLast
           lastAction := some "undo"
           lastError := none })
     | none =>
       (.displaying, { c with lastError := some "No history to undo" }))
  | .displaying, .RESET =>
    (.idle, { initialContext with userContext := c.userContext })
  | .displaying, .SHOW_INPUT request =>
    (.waitingForInput, { c with
        inputRequest := some (.single request)
        userInput := none
        multiFieldInput := none
        inputStatus := .pending
        lastAction := some "show_input"
        lastError := none })
  | .displaying, .SHOW_MULTI_FORM request =>
    (.waitingForInput, { c with
        inputRequest := some (.multi request)
        userInput := none
        multiFieldInput := none
        inputStatus := .pending
        lastAction := some "show_multi_form"
        lastError := none })
  | .displaying, .SET_USER_CONTEXT k v =>
    (.displaying, { c with
        userContext := recordSet c.userContext k v
        lastAction := some "set_user_context"
        lastError := none })
  | .displaying, .CLEAR_USER_CONTEXT =>
    (.displaying, { c with
        userContext := []
        lastAction := some "clear_user_context"
        lastError := none })
  | .displaying, .TOGGLE_SIDEBAR =>
    (.displaying, { c with
        sidebarVisible := !c.sidebarVisible
        lastAction := some "toggle_sidebar"
        lastError := none })
  | .waitingForInput, .SUBMIT_INPUT value requestId =>
    if requestIdMatches c requestId then
      (.displaying, { c with
          userInput := some value
          inputStatus := .submitted
          userContext := submitUserContext c value
          text := resolvedText c
          contentType := resolvedContentType c
          inputRequest := none
          lastAction := some "input_submitted"
          lastError := none })
    else
      (s, c)
  | .waitingForInput, .CANCEL_INPUT requestId =>
    if requestIdMatches c requestId then
      (.displaying, { c with
          userInput := none
          multiFieldInput := none
          inputStatus := .cancelled
          text := resolvedText c
          contentType := resolvedContentType c
          inputRequest := none
          lastAction := some "input_cancelled"
          lastError := none })
    else
      (s, c)
  | .waitingForInput, .SUBMIT_MULTI_FORM values requestId =>
    if requestIdMatches c requestId then
      (.displaying, { c with
          multiFieldInput := some values
          userInput := none
          inputStatus := .submitted
          userContext := recordSetMany c.userContext values
          text := resolvedText c
          contentType := resolvedContentType c
          inputRequest := none
          lastAction := some "multi_form_submitted"
          lastError := none })
    else
      (s, c)
  | .waitingForInput, .RESET =>
    (.idle, { initialContext with userContext := c.userContext })
  | _, _ => (s, c)

/-- Sending a sequence of events through the actor, left to right. -/
def run (p : MState × TextMachineContext) (es : List TextMachineEvent) :
    MState × TextMachineContext :=
  es.foldl (fun q e => transition q.1 q.2 e) p

/-- The sequence of snapshots an actor subscriber observes while the events are
processed (one snapshot per event, in commit order). -/
def trace (s : MState) (c : TextMachineContext) :
    List TextMachineEvent → List (MState × TextMachineContext)
| [] => []
| e :: es =>
  let p := transition s c e
  p :: trace p.1 p.2 es
/-!
Persistence (part_004): `saveState` projects the restartable subset of the
context, `loadPersistedState` re-reads it - minting a fresh request id when a
pending input request was persisted - and `getActor` rebuilds the context and
picks the initial machine state. The fresh id is
`restored-${Date.now()}-${Math.random()...}`; its two dynamic parts are
modelled as explicit parameters `t` (the timestamp) and `r` (the random
suffix).
-/

/-- `PersistedState` of part_004 (the restartable subset of the context). -/
structure PersistedState where
  text : String
  contentType : ContentType
  history : List HistoryEntry
  userContext : List (String × UValue)
  inputRequest : Option AnyInputRequest
  inputStatus : InputStatus
  multiFieldInput : Option (List (String × UValue))
  sidebarVisible : Bool
deriving DecidableEq

/-- `saveState`: the snapshot written to the state file after every change. -/
def saveState (c : TextMachineContext) : PersistedState :=
  { text := c.text
    contentType := c.contentType
    history := c.history
    userContext := c.userContext
    inputRequest := c.inputRequest
    inputStatus := c.inputStatus
    multiFieldInput := c.multiFieldInput
    sidebarVisible := c.sidebarVisible }

/-- The fresh request id minted on restore:
`restored-${Date.now()}-${Math.random().toString(36).substr(2, 9)}`. -/
def mintRestoredId (t : Nat) (r : String) : String :=
  "restored-" ++ toString t ++ "-" ++ r

/-- `loadPersistedState`, restore of the input request: the persisted request
with a fresh `requestId` (the old one is stale), `none` when none persisted. -/
def loadInputRequest (p : PersistedState) (t : Nat) (r : String) :
    Option AnyInputRequest :=
  match p.inputRequest with
  | some req => some (AnyInputRequest.withRequestId req (mintRestoredId t r))
  | none => none

/-- The restored context built by `getActor` from a successfully loaded
snapshot: persisted fields over `initialContext`, `userInput` reset, the input
request carrying the fresh id, and `inputStatus` forced to `pending` whenever
a request was restored (else the persisted status). -/
def restoredContext (p : PersistedState) (t : Nat) (r : String) :
    TextMachineContext :=
  { initialContext with
      text := p.text
      contentType := p.contentType
      history := p.history
      userContext := p.userContext
      inputRequest := loadInputRequest p t r
      inputStatus :=
        match loadInputRequest p t r with
        | some _ => .pending
        | none => p.inputStatus
      userInput := none
      multiFieldInput := p.multiFieldInput
      sidebarVisible := p.sidebarVisible }

/-- The initial machine state chosen by `getActor` for a restored snapshot:
`waitingForInput` when an input request was restored, else `displaying` when
the restored text is truthy (non-empty), else `idle`. -/
def restoredState (p : PersistedState) (t : Nat) (r : String) : MState :=
  if (restoredContext p t r).inputRequest.isSome then .waitingForInput
  else if (restoredContext p t r).text == "" then .idle
  else .displaying

/-!
Long-poll waiter of `get_user_input` (part_006). When the machine is in
`waitingForInput` the tool subscribes to the actor and resolves its promise at
the first subsequent snapshot whose `inputStatus` is `submitted` (returning the
multi-field values when `multiFieldInput` is truthy - any non-null object -
else the single `userInput` value) or `cancelled`; it then unsubscribes, so it
is fulfilled at most once.
-/

/-- The result a fulfilled long-poll waiter resolves with. -/
inductive PollResult
| submittedMulti (values : List (String × UValue))
| submittedSingle (value : Option String)
| cancelledPoll
deriving DecidableEq

/-- The resolution value for a snapshot with `inputStatus === 'submitted'`:
multi-field values when `newContext.multiFieldInput` is truthy, else the
single-field `userInput`. -/
def resolvePoll (c : TextMachineContext) : PollResult :=
  match c.multiFieldInput with
  | some vs => .submittedMulti vs
  | none => .submittedSingle c.userInput

/-- The waiter's walk over the snapshots emitted after it subscribes: fulfil
at the first `submitted` or `cancelled` snapshot, then unsubscribe; `none`
when no such snapshot arrives (the promise stays pending). -/
def longPoll : List TextMachineContext → Option PollResult
| [] => none
| c :: rest =>
  if c.inputStatus = .submitted then some (resolvePoll c)
  else if c.inputStatus = .cancelled then some .cancelledPoll
  else longPoll rest

/-- Whether a context snapshot has a resolution status (fulfils a waiter). -/
def isResolvedStatus (c : TextMachineContext) : Bool :=
  c.inputStatus == .submitted || c.inputStatus == .cancelled

/-- Whether an event is a submit/cancel carrying the given request id. -/
def eventResolvesId (e : TextMachineEvent) (id : String) : Bool :=
  match e with
  | .SUBMIT_INPUT _ i => i == id
  | .CANCEL_INPUT i => i == id
  | .SUBMIT_MULTI_FORM _ i => i == id
  | _ => false

/-- Whether no event of the list is a submit/cancel carrying the given id. -/
def noResolveOf (es : List TextMachineEvent) (id : String) : Bool :=
  es.all (fun e => !(eventResolvesId e id))

/-- Is the event a content-changing command of the part_004 machine
(`SET_MARKDOWN` or `APPEND`)? -/
def isContentEvent : TextMachineEvent → Bool
| .SET_MARKDOWN _ => true
| .APPEND _ => true
| _ => false

namespace Legacy

/-!
Embedding of the older machine of `src/mcp-server/src/machine.ts`: single-field
input only, no `userContext`, no sidebar, no request `content`, and the extra
events `SET_TEXT`, `APPEND_TEXT` and `CLEAR_TEXT`. `RESET` assigns the full
`initialContext`.
-/

/-- `InputRequest` of machine.ts (no `key`/`content`). -/
structure InputRequest where
  prompt : String
  inputType : InputType
  placeholder : Option String
  defaultValue : Option String
  requestId : String
deriving DecidableEq

/-- `TextMachineContext` of machine.ts. -/
structure TextMachineContext where
  text : String
  contentType : ContentType
  history : List HistoryEntry
  lastAction : Option String
  lastError : Option String
  inputRequest : Option InputRequest
  userInput : Option String
  inputStatus : InputStatus
deriving DecidableEq

/-- `TextMachineEvent` of machine.ts. -/
inductive TextMachineEvent
| SET_TEXT (text : String)
| SET_MARKDOWN (markdown : String)
| APPEND_TEXT (text : String)
| CLEAR_TEXT
| UNDO
| RESET
| SHOW_INPUT (request : InputRequest)
| SUBMIT_INPUT (value : String) (requestId : String)
| CANCEL_INPUT (requestId : String)
deriving DecidableEq

/-- `initialContext` of machine.ts. -/
def initialContext : TextMachineContext :=
  { text := ""
    contentType := .text
    history := []
    lastAction := none
    lastError := none
    inputRequest := none
    userInput := none
    inputStatus := .idle }

/-- The history push of machine.ts content-changing actions. -/
def pushHistory (c : TextMachineContext) : List HistoryEntry :=
  c.history ++ [{ text := c.text, contentType := c.contentType }]

/-- Guard `context.inputRequest?.requestId === event.requestId`. -/
def requestIdMatches (c : TextMachineContext) (requestId : String) : Bool :=
  match c.inputRequest with
  | some r => r.requestId == requestId
  | none => false

/-- The transition function of the machine.ts `textDisplay` machine. -/
def transition (s : MState) (c : TextMachineContext) (e : TextMachineEvent) :
    MState × TextMachineContext :=
  match s, e with
  | .idle, .SET_TEXT t =>
    (.displaying, { c with
        history := pushHistory c
        text := t
        contentType := .text
        lastAction := some "set_text"
        lastError := none })
  | .idle, .SET_MARKDOWN markdown =>
    (.displaying, { c with
        history := pushHistory c
        text := markdown
        contentType := .markdown
        lastAction := some "set_markdown"
        lastError := none })
  | .idle, .APPEND_TEXT t =>
    (.displaying, { c with
        history := pushHistory c
        text := c.text ++ t
        lastAction := some "append_text"
        lastError := none })
  | .idle, .SHOW_INPUT request =>
    (.waitingForInput, { c with
        inputRequest := some request
        userInput := none
        inputStatus := .pending
        lastAction := some "show_input"
        lastError := none })
  | .displaying, .SET_TEXT t =>
    (.displaying, { c with
        history := pushHistory c
        text := t
        contentType := .text
        lastAction := some "set_text"
        lastError := none })
  | .displaying, .SET_MARKDOWN markdown =>
    (.displaying, { c with
        history := pushHistory c
        text := markdown
        contentType := .markdown
        lastAction := some "set_markdown"
        lastError := none })
  | .displaying, .APPEND_TEXT t =>
    (.displaying, { c with
        history := pushHistory c
        text := c.text ++ t
        lastAction := some "append_text"
        lastError := none })
  | .displaying, .CLEAR_TEXT =>
    (.idle, { c with
        history := pushHistory c
        text := ""
        lastAction := some "clear_text"
        lastError := none })
  | .displaying, .UNDO =>
    (match c.history.getLast? with
     | some entry =>
       (.displaying, { c with
           text := entry.text
           contentType := entry.contentType
           history := c.history.dropLast
           lastAction := some "undo"
           lastError := none })
     | none =>
       (.displaying, { c with lastError := some "No history to undo" }))
  | .displaying, .RESET => (.idle, initialContext)
  | .displaying, .SHOW_INPUT request =>
    (.waitingForInput, { c with
        inputRequest := some request
        userInput := none
        inputStatus := .pending
        lastAction := some "show_input"
        lastError := none })
  | .waitingForInput, .SUBMIT_INPUT value requestId =>
    if requestIdMatches c requestId then
      (.displaying, { c with
          userInput := some value
          inputStatus := .submitted
          inputRequest := none
          lastAction := some "input_submitted"
          lastError := none })
    else
      (s, c)
  | .waitingForInput, .CANCEL_INPUT requestId =>
    if requestIdMatches c requestId then
      (.displaying, { c with
          userInput := none
          inputStatus := .cancelled
          inputRequest := none
          lastAction := some "input_cancelled"
          lastError := none })
    else
      (s, c)
  | .waitingForInput, .RESET => (.idle, initialContext)
  | _, _ => (s, c)

/-- Sending a sequence of events through the machine.ts actor. -/
def run (p : MState × TextMachineContext) (es : List TextMachineEvent) :
    MState × TextMachineContext :=
  es.foldl (fun q e => transition q.1 q.2 e) p

/-- Is the event a content-changing command of the machine.ts machine
(`SET_TEXT`, `SET_MARKDOWN` or `APPEND_TEXT`)? -/
def isContentEvent : TextMachineEvent → Bool
| .SET_TEXT _ => true
| .SET_MARKDOWN _ => true
| .APPEND_TEXT _ => true
| _ => false

end Legacy

/-!
Shared concrete sample data used by witnesses and counterexamples.
-/

/-- A concrete single-field request with id `r1` and storage key `name`. -/
def sampleSingleReq : InputRequest :=
  { prompt := "name?"
    inputType := .text
    placeholder := none
    defaultValue := none
    requestId := "r1"
    key := some "name"
    content := none }

/-- A context in which `sampleSingleReq` is the pending request. -/
def samplePendingCtx : TextMachineContext :=
  { initialContext with
      inputRequest := some (.single sampleSingleReq)
      inputStatus := .pending }

/-- A concrete single-field request with id `X` (the request a waiter starts
against). -/
def sampleRequestX : InputRequest :=
  { prompt := "choose"
    inputType := .text
    placeholder := none
    defaultValue := none
    requestId := "X"
    key := none
    content := none }

/-- A concrete single-field request with id `Y` (a later, unrelated request). -/
def sampleRequestY : InputRequest :=
  { prompt := "other?"
    inputType := .text
    placeholder := none
    defaultValue := none
    requestId := "Y"
    key := none
    content := none }

/-- A context in which request `X` is pending (the waiter's registration
point). -/
def waiterStartCtx : TextMachineContext :=
  { initialContext with
      inputRequest := some (.single sampleRequestX)
      inputStatus := .pending }

/-- Events after the waiter registers: `X` is discarded by a reset, a fresh
request `Y` is created, then `Y` is submitted. No event resolves `X`. -/
def waiterEvents : List TextMachineEvent :=
  [.RESET, .SHOW_INPUT sampleRequestY, .SUBMIT_INPUT "late" "Y"]

/-- C7: for every context, Reset (valid in displaying and waitingForInput)
yields state idle with every field restored to its default - history empty,
pending request cleared, content cleared - except userContext, which is
carried over exactly unchanged. -/
theorem c7_reset_frame (c : TextMachineContext) :
    transition .displaying c .RESET
      = (.idle, { initialContext with userContext := c.userContext })
    ∧ transition .waitingForInput c .RESET
      = (.idle, { initialContext with userContext := c.userContext })
    ∧ (transition .displaying c .RESET).2.history = []
    ∧ (transition .displaying c .RESET).2.inputRequest = none
    ∧ (transition .displaying c .RESET).2.text = ""
    ∧ (transition .displaying c .RESET).2.userContext = c.userContext :=
  ⟨rfl, rfl, rfl, rfl, rfl, rfl⟩

/-- C9 counterexample: in waitingForInput, TOGGLE_SIDEBAR is not handled: the
whole snapshot is unchanged and the sidebar boolean is NOT flipped; moreover
even in idle the command does not leave every other field unchanged, since it
rewrites lastAction. -/
theorem c9_toggle_counterexample :
    transition .waitingForInput samplePendingCtx .TOGGLE_SIDEBAR
      = (.waitingForInput, samplePendingCtx)
    ∧ ¬ ((transition .waitingForInput samplePendingCtx .TOGGLE_SIDEBAR).2.sidebarVisible
          = !samplePendingCtx.sidebarVisible)
    ∧ (transition .idle { initialContext with lastAction := some "append" }
        .TOGGLE_SIDEBAR).2.lastAction = some "toggle_sidebar" := by
  decide

/-- C9 amended: ToggleSidebar is valid in idle and displaying, where it flips
sidebarVisible, keeps the machine state, and changes nothing else apart from
the diagnostic fields (lastAction becomes toggle_sidebar, lastError is
cleared); in waitingForInput the command is ignored entirely. -/
theorem c9_toggle_sidebar (c : TextMachineContext) :
    transition .idle c .TOGGLE_SIDEBAR
      = (.idle, { c with
          sidebarVisible := !c.sidebarVisible
          lastAction := some "toggle_sidebar"
          lastError := none })
    ∧ transition .displaying c .TOGGLE_SIDEBAR
      = (.displaying, { c with
          sidebarVisible := !c.sidebarVisible
          lastAction := some "toggle_sidebar"
          lastError := none })
    ∧ transition .waitingForInput c .TOGGLE_SIDEBAR = (.waitingForInput, c) :=
  ⟨rfl, rfl, rfl⟩

/-- C10: SUBMIT_INPUT, CANCEL_INPUT and SUBMIT_MULTI_FORM never modify the
history, in any state, whether or not the guard passes and whether or not the
resolved request carries replacement content. -/
theorem c10_resolution_preserves_history (s : MState) (c : TextMachineContext)
    (v id : String) (vs : List (String × UValue)) :
    (transition s c (.SUBMIT_INPUT v id)).2.history = c.history
    ∧ (transition s c (.CANCEL_INPUT id)).2.history = c.history
    ∧ (transition s c (.SUBMIT_MULTI_FORM vs id)).2.history = c.history := by
  refine ⟨?_, ?_, ?_⟩ <;> cases s <;> simp only [transition] <;>
    (try split) <;> rfl

/-- C4 counterexample: the scenario SetContent("hi"); SetContent("bye"); Undo
from idle does give content "hi" in state displaying, but the history has
length 1 (the first SetContent pushed the initial empty snapshot), not 0. -/
theorem c4_scenario_counterexample :
    ¬ ((Legacy.run (MState.idle, Legacy.initialContext)
          [Legacy.TextMachineEvent.SET_TEXT "hi",
           Legacy.TextMachineEvent.SET_TEXT "bye",
           Legacy.TextMachineEvent.UNDO]).2.text = "hi"
        ∧ (Legacy.run (MState.idle, Legacy.initialContext)
            [Legacy.TextMachineEvent.SET_TEXT "hi",
             Legacy.TextMachineEvent.SET_TEXT "bye",
             Legacy.TextMachineEvent.UNDO]).2.history.length = 0
        ∧ (Legacy.run (MState.idle, Legacy.initialContext)
            [Legacy.TextMachineEvent.SET_TEXT "hi",
             Legacy.TextMachineEvent.SET_TEXT "bye",
             Legacy.TextMachineEvent.UNDO]).1 = MState.displaying) := by
  decide

/-- C4 amended: starting in idle with empty content and empty history,
SetContent("hi"); SetContent("bye"); Undo yields displayed content "hi",
state displaying, and a history of length 1 - the remaining entry being the
initial empty snapshot pushed by the first SetContent. -/
theorem c4_scenario :
    (Legacy.run (MState.idle, Legacy.initialContext)
        [Legacy.TextMachineEvent.SET_TEXT "hi",
         Legacy.TextMachineEvent.SET_TEXT "bye",
         Legacy.TextMachineEvent.UNDO]).2.text = "hi"
    ∧ (Legacy.run (MState.idle, Legacy.initialContext)
        [Legacy.TextMachineEvent.SET_TEXT "hi",
         Legacy.TextMachineEvent.SET_TEXT "bye",
         Legacy.TextMachineEvent.UNDO]).2.history
        = [{ text := "", contentType := .text }]
    ∧ (Legacy.run (MState.idle, Legacy.initialContext)
        [Legacy.TextMachineEvent.SET_TEXT "hi",
         Legacy.TextMachineEvent.SET_TEXT "bye",
         Legacy.TextMachineEvent.UNDO]).1 = MState.displaying := by
  decide

/-- C1 counterexample: in waitingForInput with pending request id r1, a
SubmitSingle with non-matching id leaves the snapshot entirely unchanged -
in particular lastError stays null, so no failure is recorded. -/
theorem c1_mismatch_counterexample :
    transition .waitingForInput samplePendingCtx (.SUBMIT_INPUT "v" "other")
      = (.waitingForInput, samplePendingCtx)
    ∧ (transition .waitingForInput samplePendingCtx
        (.SUBMIT_INPUT "v" "other")).2.lastError = none := by
  decide

/-- C1 amended: in waitingForInput with pending request id R, SubmitSingle
with a different id is ignored entirely - state and every context field,
lastError included, are unchanged (xstate drops the event when the guard
fails and no fallback transition exists); with the matching id the machine
transitions to displaying, records the value as the last single result, sets
the request status to submitted, and clears the pending request. -/
theorem c1_submit_single (c : TextMachineContext) (req : AnyInputRequest)
    (v id : String) (h : c.inputRequest = some req) :
    (AnyInputRequest.requestId req ≠ id →
      transition .waitingForInput c (.SUBMIT_INPUT v id) = (.waitingForInput, c))
    ∧ (AnyInputRequest.requestId req = id →
      transition .waitingForInput c (.SUBMIT_INPUT v id)
        = (.displaying, { c with
            userInput := some v
            inputStatus := .submitted
            userContext := submitUserContext c v
            text := resolvedText c
            contentType := resolvedContentType c
            inputRequest := none
            lastAction := some "input_submitted"
            lastError := none })) := by
  constructor
  · intro hne
    simp [transition, requestIdMatches, h, hne]
  · intro heq
    simp [transition, requestIdMatches, h, heq]

/-- C1 witness: both branches of the amended theorem at a concrete pending
context. -/
theorem c1_submit_single_witness :
    transition .waitingForInput samplePendingCtx (.SUBMIT_INPUT "w" "nope")
      = (.waitingForInput, samplePendingCtx)
    ∧ (transition .waitingForInput samplePendingCtx
        (.SUBMIT_INPUT "w" "r1")).2.inputStatus = .submitted := by
  refine ⟨(c1_submit_single samplePendingCtx _ "w" "nope" rfl).1 (by decide), ?_⟩
  rw [(c1_submit_single samplePendingCtx _ "w" "r1" rfl).2 (by decide)]

/-- The data-model invariant: the pending input request is non-null iff the
machine state is waitingForInput. -/
def pendingInv (s : MState) (c : TextMachineContext) : Prop :=
  c.inputRequest ≠ none ↔ s = .waitingForInput

/-- C2: the pending-request/waitingForInput equivalence holds initially, is
preserved by every command, and holds for every snapshot restored from a
persisted file at startup. -/
theorem c2_pending_iff_waiting :
    pendingInv .idle initialContext
    ∧ (∀ (s : MState) (c : TextMachineContext) (e : TextMachineEvent),
        pendingInv s c → pendingInv (transition s c e).1 (transition s c e).2)
    ∧ (∀ (p : PersistedState) (t : Nat) (r : String),
        pendingInv (restoredState p t r) (restoredContext p t r)) := by
  refine ⟨by simp [pendingInv, initialContext], ?_, ?_⟩
  · intro s c e h
    cases s <;> cases e <;> simp only [transition] <;> (try split) <;>
      simp_all [pendingInv, initialContext]
  · intro p t r
    cases hp : p.inputRequest <;>
      simp [pendingInv, restoredState, restoredContext, loadInputRequest, hp]
    split <;> simp

/-- C2 witness: preservation applied at the concrete step that creates a
pending request from the initial snapshot. -/
theorem c2_pending_iff_waiting_witness :
    pendingInv (transition .idle initialContext (.SHOW_INPUT sampleSingleReq)).1
      (transition .idle initialContext (.SHOW_INPUT sampleSingleReq)).2 :=
  c2_pending_iff_waiting.2.1 .idle initialContext (.SHOW_INPUT sampleSingleReq)
    (by simp [pendingInv, initialContext])

/-- C5: persisting a context with a pending request and restoring it yields
waitingForInput with the same request except for a freshly minted id (prompt,
fields and content are identical) and status pending; the fresh id differs
from the persisted one whenever the minted string does (the mint is
timestamp+randomness, modelled by the parameters t and r). Restoring a
snapshot with no pending request yields displaying when the persisted content
is non-empty, else idle. -/
theorem c5_persist_restore (c : TextMachineContext) (t : Nat) (r : String) :
    (∀ req, c.inputRequest = some req →
      restoredState (saveState c) t r = .waitingForInput
      ∧ (restoredContext (saveState c) t r).inputRequest
          = some (AnyInputRequest.withRequestId req (mintRestoredId t r))
      ∧ (restoredContext (saveState c) t r).inputStatus = .pending
      ∧ (AnyInputRequest.withRequestId req (mintRestoredId t r)).requestId
          = mintRestoredId t r
      ∧ (AnyInputRequest.withRequestId req (mintRestoredId t r)).promptOf
          = req.promptOf
      ∧ (AnyInputRequest.withRequestId req (mintRestoredId t r)).fieldsOf
          = req.fieldsOf
      ∧ (AnyInputRequest.withRequestId req (mintRestoredId t r)).content
          = req.content
      ∧ (mintRestoredId t r ≠ req.requestId →
          (AnyInputRequest.withRequestId req (mintRestoredId t r)).requestId
            ≠ req.requestId))
    ∧ (c.inputRequest = none →
      restoredState (saveState c) t r
        = if c.text = "" then MState.idle else .displaying) := by
  constructor
  · intro req h
    refine ⟨?_, ?_, ?_, ?_, ?_, ?_, ?_, ?_⟩
    · simp [restoredState, restoredContext, loadInputRequest, saveState, h]
    · simp [restoredContext, loadInputRequest, saveState, h]
    · simp [restoredContext, loadInputRequest, saveState, h]
    · cases req <;> rfl
    · cases req <;> rfl
    · cases req <;> rfl
    · cases req <;> rfl
    · intro hne
      cases req <;>
        simpa [AnyInputRequest.withRequestId, AnyInputRequest.requestId] using hne
  · intro h
    simp [restoredState, restoredContext, loadInputRequest, saveState, h]

/-- C5 witness: the round trip at a concrete pending context with timestamp 7
and random suffix abc; the minted id restored-7-abc differs from r1. -/
theorem c5_persist_restore_witness :
    restoredState (saveState samplePendingCtx) 7 "abc" = .waitingForInput
    ∧ (restoredContext (saveState samplePendingCtx) 7 "abc").inputStatus = .pending
    ∧ (AnyInputRequest.withRequestId (.single sampleSingleReq)
        (mintRestoredId 7 "abc")).requestId
        ≠ AnyInputRequest.requestId (.single sampleSingleReq) := by
  have h := (c5_persist_restore samplePendingCtx 7 "abc").1 (.single sampleSingleReq) rfl
  exact ⟨h.1, h.2.2.1, h.2.2.2.2.2.2.2 (by decide)⟩

/-- One content-changing command followed by Undo restores the text, content
kind and history that were in effect before the command (part_004 machine).
Holds from every state: in idle/displaying the command pushes exactly one
history entry that the Undo pops; in waitingForInput both events are ignored. -/
theorem undo_after_content_step (s : MState) (c : TextMachineContext)
    (e : TextMachineEvent) (he : isContentEvent e = true) :
    (transition (transition s c e).1 (transition s c e).2 .UNDO).2.text = c.text
    ∧ (transition (transition s c e).1 (transition s c e).2 .UNDO).2.contentType
        = c.contentType
    ∧ (transition (transition s c e).1 (transition s c e).2 .UNDO).2.history
        = c.history := by
  cases e <;> simp [isContentEvent] at he <;> cases s <;>
    simp [transition, pushHistory, List.getLast?_concat, List.dropLast_concat]

/-- Legacy analogue of `undo_after_content_step` for the machine.ts machine
(content events SET_TEXT, SET_MARKDOWN, APPEND_TEXT). -/
theorem legacy_undo_after_content_step (s : MState)
    (c : Legacy.TextMachineContext) (e : Legacy.TextMachineEvent)
    (he : Legacy.isContentEvent e = true) :
    (Legacy.transition (Legacy.transition s c e).1 (Legacy.transition s c e).2
        .UNDO).2.text = c.text
    ∧ (Legacy.transition (Legacy.transition s c e).1 (Legacy.transition s c e).2
        .UNDO).2.contentType = c.contentType
    ∧ (Legacy.transition (Legacy.transition s c e).1 (Legacy.transition s c e).2
        .UNDO).2.history = c.history := by
  cases e <;> simp [Legacy.isContentEvent] at he <;> cases s <;>
    simp [Legacy.transition, Legacy.pushHistory, List.getLast?_concat,
      List.dropLast_concat]

/-- Splitting a run at its last event. -/
theorem run_concat (p : MState × TextMachineContext)
    (es : List TextMachineEvent) (e : TextMachineEvent) :
    run p (es ++ [e]) = transition (run p es).1 (run p es).2 e := by
  simp [run, List.foldl_append]

/-- Legacy analogue of `run_concat`. -/
theorem legacy_run_concat (p : MState × Legacy.TextMachineContext)
    (es : List Legacy.TextMachineEvent) (e : Legacy.TextMachineEvent) :
    Legacy.run p (es ++ [e]) = Legacy.transition (Legacy.run p es).1 (Legacy.run p es).2 e := by
  simp [Legacy.run, List.foldl_append]

/-- C3: for every starting state and every non-empty sequence of
content-changing commands (written es ++ [e]) followed by one Undo, the
resulting content, content kind and history equal those in effect immediately
before the last content-changing command - the Undo pops exactly the entry
that command pushed. Stated for the part_004 machine (SET_MARKDOWN, APPEND)
and for the machine.ts machine (SET_TEXT, SET_MARKDOWN, APPEND_TEXT). -/
theorem c3_undo_stack :
    (∀ (s : MState) (c : TextMachineContext) (es : List TextMachineEvent)
        (e : TextMachineEvent),
      (∀ x ∈ es, isContentEvent x = true) → isContentEvent e = true →
      (transition (run (s, c) (es ++ [e])).1 (run (s, c) (es ++ [e])).2
          .UNDO).2.text = (run (s, c) es).2.text
      ∧ (transition (run (s, c) (es ++ [e])).1 (run (s, c) (es ++ [e])).2
          .UNDO).2.contentType = (run (s, c) es).2.contentType
      ∧ (transition (run (s, c) (es ++ [e])).1 (run (s, c) (es ++ [e])).2
          .UNDO).2.history = (run (s, c) es).2.history)
    ∧ (∀ (s : MState) (c : Legacy.TextMachineContext)
        (es : List Legacy.TextMachineEvent) (e : Legacy.TextMachineEvent),
      (∀ x ∈ es, Legacy.isContentEvent x = true) → Legacy.isContentEvent e = true →
      (Legacy.transition (Legacy.run (s, c) (es ++ [e])).1
          (Legacy.run (s, c) (es ++ [e])).2 .UNDO).2.text
        = (Legacy.run (s, c) es).2.text
      ∧ (Legacy.transition (Legacy.run (s, c) (es ++ [e])).1
          (Legacy.run (s, c) (es ++ [e])).2 .UNDO).2.contentType
        = (Legacy.run (s, c) es).2.contentType
      ∧ (Legacy.transition (Legacy.run (s, c) (es ++ [e])).1
          (Legacy.run (s, c) (es ++ [e])).2 .UNDO).2.history
        = (Legacy.run (s, c) es).2.history) := by
  constructor
  · intro s c es e _ he
    rw [run_concat]
    exact undo_after_content_step (run (s, c) es).1 (run (s, c) es).2 e he
  · intro s c es e _ he
    rw [legacy_run_concat]
    exact legacy_undo_after_content_step (Legacy.run (s, c) es).1
      (Legacy.run (s, c) es).2 e he

/-- C3 witness: the part_004 half at the concrete sequence
SET_MARKDOWN "a"; APPEND "b"; UNDO from the initial idle snapshot. -/
theorem c3_undo_stack_witness :
    (transition
        (run (MState.idle, initialContext)
          ([TextMachineEvent.SET_MARKDOWN "a"] ++ [TextMachineEvent.APPEND "b"])).1
        (run (MState.idle, initialContext)
          ([TextMachineEvent.SET_MARKDOWN "a"] ++ [TextMachineEvent.APPEND "b"])).2
        .UNDO).2.text
      = (run (MState.idle, initialContext) [TextMachineEvent.SET_MARKDOWN "a"]).2.text
    ∧ (transition
        (run (MState.idle, initialContext)
          ([TextMachineEvent.SET_MARKDOWN "a"] ++ [TextMachineEvent.APPEND "b"])).1
        (run (MState.idle, initialContext)
          ([TextMachineEvent.SET_MARKDOWN "a"] ++ [TextMachineEvent.APPEND "b"])).2
        .UNDO).2.contentType
      = (run (MState.idle, initialContext)
          [TextMachineEvent.SET_MARKDOWN "a"]).2.contentType
    ∧ (transition
        (run (MState.idle, initialContext)
          ([TextMachineEvent.SET_MARKDOWN "a"] ++ [TextMachineEvent.APPEND "b"])).1
        (run (MState.idle, initialContext)
          ([TextMachineEvent.SET_MARKDOWN "a"] ++ [TextMachineEvent.APPEND "b"])).2
        .UNDO).2.history
      = (run (MState.idle, initialContext)
          [TextMachineEvent.SET_MARKDOWN "a"]).2.history :=
  c3_undo_stack.1 .idle initialContext [TextMachineEvent.SET_MARKDOWN "a"]
    (.APPEND "b") (by decide) (by decide)

/-- C6 counterexample: a waiter registers while request X is pending; then a
Reset discards X, a new request Y is created, and Y is submitted. No event
ever resolves X, yet the waiter is fulfilled - with Y's submission - because
the subscription only inspects inputStatus, never the request id. -/
theorem c6_waiter_counterexample :
    waiterStartCtx.inputRequest = some (.single sampleRequestX)
    ∧ AnyInputRequest.requestId (.single sampleRequestX) = "X"
    ∧ waiterStartCtx.inputStatus = .pending
    ∧ noResolveOf waiterEvents "X" = true
    ∧ longPoll ((trace .waitingForInput waiterStartCtx waiterEvents).map Prod.snd)
        = some (.submittedSingle (some "late")) := by
  decide

/-- C6 amended: a waiter registered while request X is pending is fulfilled at
most once, namely at the first subsequent snapshot whose inputStatus is
submitted or cancelled, regardless of which request's resolution produced that
status. When the first event after registration submits (resp. cancels) X
itself, the waiter is fulfilled with exactly that submission's value (resp. a
cancellation); but the waiter does not key on X's id, so after X is discarded
it can be fulfilled by the resolution of a later, unrelated request. -/
theorem c6_waiter_first_resolution :
    (∀ (c : TextMachineContext) (req : AnyInputRequest) (v : String)
        (es : List TextMachineEvent),
      c.inputRequest = some req → c.multiFieldInput = none →
      longPoll ((trace .waitingForInput c
          (.SUBMIT_INPUT v (AnyInputRequest.requestId req) :: es)).map Prod.snd)
        = some (.submittedSingle (some v)))
    ∧ (∀ (c : TextMachineContext) (req : AnyInputRequest)
        (es : List TextMachineEvent),
      c.inputRequest = some req →
      longPoll ((trace .waitingForInput c
          (.CANCEL_INPUT (AnyInputRequest.requestId req) :: es)).map Prod.snd)
        = some .cancelledPoll)
    ∧ (∀ cs : List TextMachineContext,
      longPoll cs = none ↔ ∀ x ∈ cs, isResolvedStatus x = false) := by
  refine ⟨?_, ?_, ?_⟩
  · intro c req v es h hm
    simp [trace, transition, requestIdMatches, h, longPoll, resolvePoll, hm]
  · intro c req es h
    simp [trace, transition, requestIdMatches, h, longPoll]
  · intro cs
    induction cs with
    | nil => simp [longPoll]
    | cons a as ih =>
      by_cases h1 : a.inputStatus = .submitted
      · simp [longPoll, isResolvedStatus, h1]
      · by_cases h2 : a.inputStatus = .cancelled
        · simp [longPoll, isResolvedStatus, h1, h2]
        · simp [longPoll, isResolvedStatus, h1, h2, ih]

/-- C6 witness: the submit branch of the amended theorem at the concrete
waiter context, fulfilled immediately by the submission of X itself. -/
theorem c6_waiter_first_resolution_witness :
    longPoll ((trace .waitingForInput waiterStartCtx
        [TextMachineEvent.SUBMIT_INPUT "ok"
          (AnyInputRequest.requestId (.single sampleRequestX))]).map Prod.snd)
      = some (.submittedSingle (some "ok")) :=
  c6_waiter_first_resolution.1 waiterStartCtx (.single sampleRequestX) "ok" []
    rfl rfl

/-- Diagnostic outcome of a successfully applied command: lastAction is its
canonical name and lastError is cleared. -/
def okDiag (p : MState × TextMachineContext) (name : String) : Prop :=
  p.2.lastAction = some name ∧ p.2.lastError = none

/-- C8 counterexample: a successful Reset does not set lastAction to the
canonical name of Reset - it resets it to null; and a submit whose id guard
fails does not set lastError - the context is entirely unchanged. -/
theorem c8_diagnostics_counterexample :
    (transition .displaying
        { initialContext with text := "x", lastAction := some "set_markdown" }
        .RESET).2.lastAction = none
    ∧ (transition .waitingForInput samplePendingCtx
        (.SUBMIT_INPUT "v2" "wrong")).2.lastError = none := by
  decide

/-- C8 amended: every successfully applied command other than Reset clears
lastError and sets lastAction to its canonical name; a successful Reset
resets both lastAction and lastError to null (their defaults). A failed Undo
guard sets lastError and leaves state and every other field unchanged; a
failed request-id guard on submit/cancel leaves the state and the entire
context, lastError included, unchanged. -/
theorem c8_diagnostics :
    (∀ (c : TextMachineContext) (m : String),
      okDiag (transition .idle c (.SET_MARKDOWN m)) "set_markdown"
      ∧ okDiag (transition .displaying c (.SET_MARKDOWN m)) "set_markdown")
    ∧ (∀ (c : TextMachineContext) (t : String),
      okDiag (transition .idle c (.APPEND t)) "append"
      ∧ okDiag (transition .displaying c (.APPEND t)) "append")
    ∧ (∀ (c : TextMachineContext) (req : InputRequest),
      okDiag (transition .idle c (.SHOW_INPUT req)) "show_input"
      ∧ okDiag (transition .displaying c (.SHOW_INPUT req)) "show_input")
    ∧ (∀ (c : TextMachineContext) (req : MultiFieldRequest),
      okDiag (transition .idle c (.SHOW_MULTI_FORM req)) "show_multi_form"
      ∧ okDiag (transition .displaying c (.SHOW_MULTI_FORM req)) "show_multi_form")
    ∧ (∀ (c : TextMachineContext) (k : String) (v : UValue),
      okDiag (transition .idle c (.SET_USER_CONTEXT k v)) "set_user_context"
      ∧ okDiag (transition .displaying c (.SET_USER_CONTEXT k v)) "set_user_context")
    ∧ (∀ c : TextMachineContext,
      okDiag (transition .idle c .CLEAR_USER_CONTEXT) "clear_user_context"
      ∧ okDiag (transition .displaying c .CLEAR_USER_CONTEXT) "clear_user_context")
    ∧ (∀ c : TextMachineContext,
      okDiag (transition .idle c .TOGGLE_SIDEBAR) "toggle_sidebar"
      ∧ okDiag (transition .displaying c .TOGGLE_SIDEBAR) "toggle_sidebar")
    ∧ (∀ c : TextMachineContext, c.history ≠ [] →
      okDiag (transition .displaying c .UNDO) "undo")
    ∧ (∀ c : TextMachineContext, c.history = [] →
      transition .displaying c .UNDO
        = (.displaying, { c with lastError := some "No history to undo" }))
    ∧ (∀ c : TextMachineContext,
      (transition .displaying c .RESET).2.lastAction = none
      ∧ (transition .displaying c .RESET).2.lastError = none
      ∧ (transition .waitingForInput c .RESET).2.lastAction = none
      ∧ (transition .waitingForInput c .RESET).2.lastError = none)
    ∧ (∀ (c : TextMachineContext) (v id : String),
      requestIdMatches c id = true →
      okDiag (transition .waitingForInput c (.SUBMIT_INPUT v id)) "input_submitted")
    ∧ (∀ (c : TextMachineContext) (id : String),
      requestIdMatches c id = true →
      okDiag (transition .waitingForInput c (.CANCEL_INPUT id)) "input_cancelled")
    ∧ (∀ (c : TextMachineContext) (vs : List (String × UValue)) (id : String),
      requestIdMatches c id = true →
      okDiag (transition .waitingForInput c (.SUBMIT_MULTI_FORM vs id))
        "multi_form_submitted")
    ∧ (∀ (c : TextMachineContext) (v id : String),
      requestIdMatches c id = false →
      transition .waitingForInput c (.SUBMIT_INPUT v id) = (.waitingForInput, c))
    ∧ (∀ (c : TextMachineContext) (id : String),
      requestIdMatches c id = false →
      transition .waitingForInput c (.CANCEL_INPUT id) = (.waitingForInput, c))
    ∧ (∀ (c : TextMachineContext) (vs : List (String × UValue)) (id : String),
      requestIdMatches c id = false →
      transition .waitingForInput c (.SUBMIT_MULTI_FORM vs id)
        = (.waitingForInput, c)) := by
  refine ⟨?_, ?_, ?_, ?_, ?_, ?_, ?_, ?_, ?_, ?_, ?_, ?_, ?_, ?_, ?_, ?_⟩
  · intro c m; exact ⟨⟨rfl, rfl⟩, ⟨rfl, rfl⟩⟩
  · intro c t; exact ⟨⟨rfl, rfl⟩, ⟨rfl, rfl⟩⟩
  · intro c req; exact ⟨⟨rfl, rfl⟩, ⟨rfl, rfl⟩⟩
  · intro c req; exact ⟨⟨rfl, rfl⟩, ⟨rfl, rfl⟩⟩
  · intro c k v; exact ⟨⟨rfl, rfl⟩, ⟨rfl, rfl⟩⟩
  · intro c; exact ⟨⟨rfl, rfl⟩, ⟨rfl, rfl⟩⟩
  · intro c; exact ⟨⟨rfl, rfl⟩, ⟨rfl, rfl⟩⟩
  · intro c hne
    rcases c.history.eq_nil_or_concat' with h | ⟨L, b, h⟩
    · exact absurd h hne
    · simp [okDiag, transition, h, List.getLast?_concat]
  · intro c h
    simp [transition, h]
  · intro c; exact ⟨rfl, rfl, rfl, rfl⟩
  · intro c v id h; simp [okDiag, transition, h]
  · intro c id h; simp [okDiag, transition, h]
  · intro c vs id h; simp [okDiag, transition, h]
  · intro c v id h; simp [transition, h]
  · intro c id h; simp [transition, h]
  · intro c vs id h; simp [transition, h]

/-- C8 witness: the amended theorem at concrete inputs - a successful Undo on
a one-entry history, and an ignored submit with a non-matching id. -/
theorem c8_diagnostics_witness :
    okDiag (transition .displaying
      { initialContext with history := [{ text := "a", contentType := .text }] }
      .UNDO) "undo"
    ∧ transition .waitingForInput samplePendingCtx (.SUBMIT_INPUT "q" "zz")
        = (.waitingForInput, samplePendingCtx) := by
  constructor
  · exact c8_diagnostics.2.2.2.2.2.2.2.1
      { initialContext with history := [{ text := "a", contentType := .text }] }
      (by decide)
  · exact c8_diagnostics.2.2.2.2.2.2.2.2.2.2.2.2.2.1 samplePendingCtx "q" "zz"
      (by decide)
